import Mathlib

/-!
Shallow embedding of `lxclib/main.py` (class `Container`): the lxc container
lifecycle state machine, its delegated `systemd-run` commands, the state
probe, the info parser and the catalog functions.

Modelling conventions:
* The probed lifecycle state is passed as a fixed `State` parameter: the
  Python code re-probes `self.state` before each decision, and the claims
  quantify over "the probed state", so the probe is modelled as returning a
  stable value for the duration of one operation.
* External process execution is an oracle `Runner : List String → RunOutcome`
  giving exit code and captured stdout/stderr for an argument vector.
* Every operation returns `Except Err α × List SdCall`: the Python return
  value or raised exception, together with the ordered trace of
  `_systemd_run` invocations (the delegated commands) it issued.
* Python `str.strip`/`str.split`/`str.lower`/`str.upper` are modelled by
  the executable `pyStrip`/`pySplit`/`pyLower`/`pyUpper` below, which follow
  Python's semantics on the ASCII data involved here (in particular
  `"".split(sep)` is `[""]` and split does not collapse empty fields).
-/

namespace Lxclib

/-- Python's default `str.strip` character class (ASCII part). -/
def pyIsSpace (c : Char) : Bool :=
  c = ' ' ∨ c = '\t' ∨ c = '\n' ∨ c = '\r' ∨ c = Char.ofNat 11 ∨ c = Char.ofNat 12

/-- worker for `pySplit`: accumulates the current field (reversed). -/
def pySplitAux (sep : Char) : List Char → List Char → List (List Char)
  | [], cur => [cur.reverse]
  | c :: rest, cur =>
      if c = sep then cur.reverse :: pySplitAux sep rest []
      else pySplitAux sep rest (c :: cur)

/-- Python `s.split(sep)` for a one-character separator: no collapsing of
empty fields, and the empty string yields `[""]`. -/
def pySplit (sep : Char) (s : String) : List String :=
  (pySplitAux sep s.data []).map (fun l => String.mk l)

/-- Python `s.strip()`: drop leading and trailing whitespace. -/
def pyStrip (s : String) : String :=
  String.mk (((s.data.dropWhile pyIsSpace).reverse.dropWhile pyIsSpace).reverse)

/-- Python `s.lower()` (ASCII). -/
def pyLower (s : String) : String :=
  String.mk (s.data.map Char.toLower)

/-- Python `s.upper()` (ASCII). -/
def pyUpper (s : String) : String :=
  String.mk (s.data.map Char.toUpper)

/-- lxc container states: the enum `Container.State` in `main.py`. -/
inductive State
  | RUNNING
  | STOPPED
  | ABSENT
deriving DecidableEq, Repr

/-- exceptions that can escape the `Container` methods: the three classes
nested in `Container` plus the built-in Python exceptions the code can raise
(`KeyError` from `State[...]`, `IndexError` from `split(":")[1]`,
`AttributeError` from `.upper()` on a list, `OSError` when the probed binary
cannot be invoked at all). -/
inductive Err
  | MissingInformationsError
  | MustUseForceError
  | SystemdRunError (command : List String) (output : Option String)
  | KeyError (key : String)
  | IndexError
  | AttributeError
  | OSError
deriving DecidableEq, Repr

/-- outcome of spawning one external process: exit code and captured
stdout/stderr. -/
structure RunOutcome where
  exitCode : Nat
  stdout : String
  stderr : String
deriving DecidableEq, Repr

/-- oracle describing how the operating system runs each argument vector. -/
abbrev Runner := List String → RunOutcome

/-- a runner on which every command exits 0 with empty output. -/
def okRunner : Runner := fun _ => RunOutcome.mk 0 "" ""

/-- one delegated (`systemd-run`-supervised) invocation recorded in the
trace: the unit name, the unwrapped runtime command, and the bind mode. -/
structure SdCall where
  unit : String
  command : List String
  bind : Bool
deriving DecidableEq, Repr

/-- the complete wrapped argument vector built at the top of
`Container._systemd_run`. -/
def sdWrap (unit : String) (command : List String) : List String :=
  ["systemd-run", "--unit", unit, "--user", "--scope", "-p", "Delegate=yes", "--"] ++ command

/-- result of a `Container` method: the Python return value or exception,
together with the ordered list of delegated commands issued. -/
abbrev Res (α : Type) := Except Err α × List SdCall

/-- sequencing of two steps: the second runs only when the first succeeded,
and the traces concatenate. -/
def andThen {α β : Type} (a : Res α) (f : α → Res β) : Res β :=
  match a with
  | (Except.error e, t) => (Except.error e, t)
  | (Except.ok x, t) => ((f x).1, t ++ (f x).2)

/-- `Container.__init__`: an opaque name plus optional creation
parameters. -/
structure Container where
  name : String
  distribution : Option String
  release : Option String
  architecture : Option String
deriving DecidableEq, Repr

namespace Container

/-- `Container._systemd_run`: wrap `command` under
`systemd-run --unit u --user --scope -p Delegate=yes --`, run it, and on a
non-zero exit raise `SystemdRunError` carrying the complete wrapped vector
and — in batch mode — the captured standard output (`err.output.decode()`;
in bind mode the output attribute is `None`). -/
def systemd_run (runner : Runner) (unit_name : String) (command : List String)
    (bind : Bool) : Res Unit :=
  let complete_command := sdWrap unit_name command
  let out := runner complete_command
  ((if out.exitCode ≠ 0 then
      (if bind then Except.error (Err.SystemdRunError complete_command none)
       else Except.error (Err.SystemdRunError complete_command (some out.stdout)))
    else Except.ok ()),
   [SdCall.mk unit_name command bind])

/-- `Container._systemd_run_stop`. -/
def systemd_run_stop (c : Container) (runner : Runner) : Res Unit :=
  systemd_run runner ("lxc-stop-" ++ c.name) ["lxc-stop", "--name", c.name] false

/-- `Container._systemd_run_start`. -/
def systemd_run_start (c : Container) (runner : Runner) : Res Unit :=
  systemd_run runner ("lxc-start-" ++ c.name) ["lxc-start", "--name", c.name] false

/-- `Container._systemd_run_create`: raises `MissingInformationsError` when
any of distribution/release/architecture is `None`, before any command is
issued; otherwise runs the `lxc-create` template command. -/
def systemd_run_create (c : Container) (runner : Runner) : Res Unit :=
  match c.distribution, c.release, c.architecture with
  | some d, some r, some a =>
      systemd_run runner ("lxc-create-" ++ c.name)
        (["lxc-create", "--template", "download", "--name", c.name, "--"] ++
          ["--dist", d, "--release", r, "--arch", a]) false
  | _, _, _ => (Except.error Err.MissingInformationsError, [])

/-- `Container._systemd_run_destroy`. -/
def systemd_run_destroy (c : Container) (runner : Runner) : Res Unit :=
  systemd_run runner ("lxc-destroy-" ++ c.name) ["lxc-destroy", "--name", c.name] false

/-- `Container._systemd_run_attach`: optional inner command appended after
`--`, bind mode passed through. -/
def systemd_run_attach (c : Container) (runner : Runner)
    (inner_command : Option (List String)) (bind : Bool) : Res Unit :=
  let command := ["lxc-attach", "--name", c.name] ++
    (match inner_command with
     | none => []
     | some ic => ["--"] ++ ic)
  systemd_run runner ("lxc-attach-" ++ c.name) command bind

/-- `Container.stop`: no-op (returns `False`) only when the probed state is
STOPPED; otherwise issues `lxc-stop` unless `check` and returns `True`. -/
def stop (c : Container) (st : State) (runner : Runner) (check : Bool) : Res Bool :=
  if st = State.STOPPED then (Except.ok false, [])
  else if check then (Except.ok true, [])
  else andThen (c.systemd_run_stop runner) (fun _ => (Except.ok true, []))

/-- `Container.create`: no-op (returns `False`) when the probed state is not
ABSENT; otherwise delegates to `_systemd_run_create` unless `check`. -/
def create (c : Container) (st : State) (runner : Runner) (check : Bool) : Res Bool :=
  if st ≠ State.ABSENT then (Except.ok false, [])
  else if check then (Except.ok true, [])
  else andThen (c.systemd_run_create runner) (fun _ => (Except.ok true, []))

/-- `Container.start`: no-op when RUNNING; ABSENT without `force` raises
`MustUseForceError`; otherwise runs `create` (itself a no-op unless ABSENT)
then issues `lxc-start` unless `check`. -/
def start (c : Container) (st : State) (runner : Runner) (force check : Bool) : Res Bool :=
  if st = State.RUNNING then (Except.ok false, [])
  else if st = State.ABSENT ∧ force = false then (Except.error Err.MustUseForceError, [])
  else andThen (c.create st runner check) (fun _ =>
    if check then (Except.ok true, [])
    else andThen (c.systemd_run_start runner) (fun _ => (Except.ok true, [])))

/-- `Container.destroy`: no-op when ABSENT; not STOPPED without `force`
raises `MustUseForceError`; otherwise runs `stop` then issues `lxc-destroy`
unless `check`. -/
def destroy (c : Container) (st : State) (runner : Runner) (force check : Bool) : Res Bool :=
  if st = State.ABSENT then (Except.ok false, [])
  else if st ≠ State.STOPPED ∧ force = false then (Except.error Err.MustUseForceError, [])
  else andThen (c.stop st runner check) (fun _ =>
    if check then (Except.ok true, [])
    else andThen (c.systemd_run_destroy runner) (fun _ => (Except.ok true, [])))

/-- `Container.restart`: `stop` then `start`. -/
def restart (c : Container) (st : State) (runner : Runner) (force check : Bool) : Res Bool :=
  andThen (c.stop st runner check) (fun _ =>
    andThen (c.start st runner force check) (fun _ => (Except.ok true, [])))

/-- `Container.attach`: `force_run` is or-ed with `force`; not RUNNING
without the combined flag raises `MustUseForceError`; otherwise runs
`start force` then issues `lxc-attach` unless `check`. -/
def attach (c : Container) (st : State) (runner : Runner)
    (command : Option (List String)) (bind force_run force check : Bool) : Res Bool :=
  let fr := force_run || force
  if st ≠ State.RUNNING ∧ fr = false then (Except.error Err.MustUseForceError, [])
  else andThen (c.start st runner force check) (fun _ =>
    if check then (Except.ok true, [])
    else andThen (c.systemd_run_attach runner command bind) (fun _ => (Except.ok true, [])))

end Container

/-- outcome of invoking the inspection command (`lxc-info`): either the
binary could not be invoked at all (Python `OSError`, not caught by the
code), or it ran and exited with a code and captured stdout.
`subprocess.check_output` raises `CalledProcessError` exactly when the exit
code is non-zero. -/
inductive ProbeOutcome
  | invocationFailure
  | exited (code : Nat) (stdout : String)
deriving DecidableEq, Repr

/-- Python's `Container.State[name]` enum lookup: only the three member
names succeed; anything else raises `KeyError`. -/
def stateLookup (s : String) : Except Err State :=
  if s = "RUNNING" then Except.ok State.RUNNING
  else if s = "STOPPED" then Except.ok State.STOPPED
  else if s = "ABSENT" then Except.ok State.ABSENT
  else Except.error (Err.KeyError s)

namespace Container

/-- `Container.state`: `CalledProcessError` (non-zero exit) maps to ABSENT;
on success the code evaluates
`State[_out.decode().split(":")[1].strip().upper()]`, so output without a
colon raises `IndexError` and an unknown state token raises `KeyError`;
failure to invoke the binary propagates `OSError`. -/
def state (o : ProbeOutcome) : Except Err State :=
  match o with
  | ProbeOutcome.invocationFailure => Except.error Err.OSError
  | ProbeOutcome.exited code out =>
      if code ≠ 0 then Except.ok State.ABSENT
      else
        match (pySplit ':' out).get? 1 with
        | none => Except.error Err.IndexError
        | some s => stateLookup (pyUpper (pyStrip s))

end Container

/-- value stored in `_infos[key]` while `Container.info`'s parsing loop
runs: a plain string, or a list accumulated from a repeated key. -/
abbrev LoopVal := String ⊕ List String

/-- final value in the dictionary `Container.info` returns: a string, a
list of strings, or the normalized `State` member for the `state` key. -/
inductive PyVal
  | str (v : String)
  | list (vs : List String)
  | state (v : State)
deriving DecidableEq, Repr

/-- parsing of one line of `lxc-info` output inside `Container.info`'s
loop: `_info = line.split(":")`, key `_info[0].lower()`, value
`_info[1].strip().lower()`; a line without a colon raises `IndexError`.
Note the value keeps only the text between the first and second colon. -/
def parseLine (line : String) : Except Err (String × String) :=
  match pySplit ':' line with
  | [] => Except.error Err.IndexError
  | [_] => Except.error Err.IndexError
  | k :: v :: _ => Except.ok (pyLower k, pyLower (pyStrip v))

/-- one iteration of `Container.info`'s loop body on the ordered
dictionary: a new key is appended; a repeated key's value is converted to a
list (keeping its position) and the new value appended. -/
def addInfo : List (String × LoopVal) → String → String → List (String × LoopVal)
  | [], k, v => [(k, Sum.inl v)]
  | (k2, v2) :: rest, k, v =>
      if k2 = k then
        (match v2 with
         | Sum.inl old => (k2, Sum.inr [old, v])
         | Sum.inr olds => (k2, Sum.inr (olds ++ [v]))) :: rest
      else (k2, v2) :: addInfo rest k v

/-- `Container.info`'s whole parsing loop over the output lines. -/
def buildInfos : List (String × LoopVal) → List String → Except Err (List (String × LoopVal))
  | acc, [] => Except.ok acc
  | acc, line :: rest =>
      match parseLine line with
      | Except.error e => Except.error e
      | Except.ok kv => buildInfos (addInfo acc kv.1 kv.2) rest

/-- ordered-dictionary lookup by key (first matching entry). -/
def lookupS {α : Type} : List (String × α) → String → Option α
  | [], _ => none
  | (k2, v) :: rest, k => if k2 = k then some v else lookupS rest k

/-- the post-loop normalization `_infos["state"] = State[_infos["state"].upper()]`
applied entrywise: the `state` entry must be a plain string (a list raises
`AttributeError` from `.upper()`) naming a state member (otherwise
`KeyError`); other entries are kept as strings or lists. -/
def normalizeEntry : String × LoopVal → Except Err (String × PyVal)
  | (k, Sum.inl s) =>
      if k = "state" then
        match stateLookup (pyUpper s) with
        | Except.ok st => Except.ok (k, PyVal.state st)
        | Except.error err => Except.error err
      else Except.ok (k, PyVal.str s)
  | (k, Sum.inr l) =>
      if k = "state" then Except.error Err.AttributeError
      else Except.ok (k, PyVal.list l)

/-- `normalizeEntry` applied to every entry in order, stopping at the first
raised exception. -/
def mapEntries : List (String × LoopVal) → Except Err (List (String × PyVal))
  | [] => Except.ok []
  | e :: rest =>
      match normalizeEntry e with
      | Except.error err => Except.error err
      | Except.ok p =>
          match mapEntries rest with
          | Except.error err => Except.error err
          | Except.ok ps => Except.ok (p :: ps)

namespace Container

/-- `Container.info`: a failed inspection command returns
`{"state": State.ABSENT}`; a successful one parses
`_out.decode().strip().split("\n")` through the loop and then normalizes
the `state` entry. -/
def info (o : ProbeOutcome) : Except Err (List (String × PyVal)) :=
  match o with
  | ProbeOutcome.invocationFailure => Except.error Err.OSError
  | ProbeOutcome.exited code out =>
      if code ≠ 0 then Except.ok [("state", PyVal.state State.ABSENT)]
      else
        match buildInfos [] (pySplit '\n' (pyStrip out)) with
        | Except.error e => Except.error e
        | Except.ok infos => mapEntries infos

/-- `Container.list_all`: `_out.decode().strip().split("\n")` mapped to
`Container(name=c)`; Python `"".split("\n")` is `[""]`, never `[]`. -/
def list_all (raw : String) : List Container :=
  (pySplit '\n' (pyStrip raw)).map (fun c => Container.mk c none none none)

end Container

/-- insertion into a Python dict modelled as an ordered association list:
an existing key keeps its position and gets the new value, a new key is
appended. -/
def dictInsert {α : Type} (d : List (String × α)) (k : String) (v : α) :
    List (String × α) :=
  if (d.lookup k).isSome then d.map (fun p => if p.1 = k then (k, v) else p)
  else d ++ [(k, v)]

namespace Container

/-- `Container.list_info`: the dict comprehension
`{c.name: c.info() for c in cls.list_all()}`, with each container's info
supplied by the oracle `infoOf` applied to its name. -/
def list_info {α : Type} (raw : String) (infoOf : String → α) : List (String × α) :=
  (list_all raw).foldl (fun d c => dictInsert d c.name (infoOf c.name)) []

end Container

/-- a runner on which every command exits 1 with empty stdout and the
stderr text `no such container`. -/
def failRunner : Runner := fun _ => RunOutcome.mk 1 "" "no such container"

/-- the parsed values (text between the first and second colon, stripped
and lowercased) of the lines whose parsed key is `k`, in line order. -/
def valsFor (k : String) (lines : List String) : List String :=
  lines.filterMap (fun l =>
    match parseLine l with
    | Except.ok kv => if kv.1 = k then some kv.2 else none
    | Except.error _ => none)

/-- the values collected so far under key `k` in the loop dictionary: none,
a single string, or an accumulated list. -/
def collected (k : String) (d : List (String × LoopVal)) : List String :=
  match lookupS d k with
  | none => []
  | some (Sum.inl s) => [s]
  | some (Sum.inr l) => l

/-- erase a `MissingInformationsError` outcome to the `True` a skipped
parameter check returns; other outcomes unchanged. -/
def skipMissing : Except Err Bool → Except Err Bool
  | Except.error Err.MissingInformationsError => Except.ok true
  | r => r

/-- the trace of a sequenced step whose continuation issues no commands is
the trace of the first step. -/
theorem andThen_snd {α β : Type} (r : Except Err α) (t : List SdCall) (f : α → Res β)
    (h : ∀ x, (f x).2 = []) : (andThen (r, t) f).2 = t := by
  cases r <;> simp [andThen, h]

/-- C1 counterexample: on the container `box` whose probed state is ABSENT,
`stop` is not a no-op: it returns `True` (the "acted" indication) and
issues one `lxc-stop` delegated command, so its trace is not empty. -/
theorem c1_counterexample :
    (Container.mk "box" none none none).stop State.ABSENT okRunner false =
      (Except.ok true, [SdCall.mk "lxc-stop-box" ["lxc-stop", "--name", "box"] false]) ∧
    ((Container.mk "box" none none none).stop State.ABSENT okRunner false).2 ≠ [] := by
  refine ⟨rfl, by decide⟩

/-- C1 amended: for every container whose probed state is ABSENT, `destroy`
is a no-op returning `False` with zero delegated commands (for any force
and check flags and any runner); `stop`, however, is not a no-op on ABSENT:
it issues exactly one `lxc-stop` delegated command. -/
theorem c1_absent_destroy_noop_stop_acts (c : Container) (runner : Runner) (force check : Bool) :
    c.destroy State.ABSENT runner force check = (Except.ok false, []) ∧
    (c.stop State.ABSENT runner false).2 =
      [SdCall.mk ("lxc-stop-" ++ c.name) ["lxc-stop", "--name", c.name] false] := by
  constructor
  · simp [Container.destroy]
  · rw [Container.stop]
    simp only [reduceCtorEq, if_false, Bool.false_eq_true]
    rw [Container.systemd_run_stop, Container.systemd_run]
    exact andThen_snd _ _ _ (fun _ => rfl)

/-- C2 counterexample: on the container `box` with no creation parameters
and probed state RUNNING, `create` returns `False` with zero delegated
commands and does not raise `MissingInformationsError`. -/
theorem c2_counterexample :
    (Container.mk "box" none none none).create State.RUNNING okRunner false =
      (Except.ok false, []) ∧
    ((Container.mk "box" none none none).create State.RUNNING okRunner false).1 ≠
      Except.error Err.MissingInformationsError := by
  refine ⟨rfl, by simp [Container.create]⟩

/-- C2 amended: for every container missing at least one of
distribution/release/architecture, `create` raises
`MissingInformationsError` with zero delegated commands only when the
probed state is ABSENT; for RUNNING or STOPPED it is a silent no-op
returning `False` with zero delegated commands. -/
theorem c2_missing_params (c : Container) (st : State) (runner : Runner)
    (h : c.distribution = none ∨ c.release = none ∨ c.architecture = none) :
    (st = State.ABSENT →
      c.create st runner false = (Except.error Err.MissingInformationsError, [])) ∧
    (st ≠ State.ABSENT → c.create st runner false = (Except.ok false, [])) := by
  constructor
  · intro hst
    subst hst
    obtain ⟨n, d, r, a⟩ := c
    simp only [Container.distribution, Container.release, Container.architecture] at h
    cases d <;> cases r <;> cases a <;>
      simp_all [Container.create, Container.systemd_run_create, andThen]
  · intro hst
    simp [Container.create, hst]

/-- C2 amended witness at a concrete input: missing distribution, state
ABSENT. -/
theorem c2_missing_params_witness :
    (Container.mk "box" none (some "bookworm") (some "amd64")).create
        State.ABSENT okRunner false =
      (Except.error Err.MissingInformationsError, []) :=
  (c2_missing_params (Container.mk "box" none (some "bookworm") (some "amd64"))
    State.ABSENT okRunner (Or.inl rfl)).1 rfl

/-- helper: an enum lookup either yields a state or raises `KeyError` on the
looked-up name. -/
theorem stateLookup_cases (s : String) :
    (∃ st, stateLookup s = Except.ok st) ∨ stateLookup s = Except.error (Err.KeyError s) := by
  unfold stateLookup
  split_ifs <;> first | exact Or.inl ⟨_, rfl⟩ | exact Or.inr rfl

/-- C3 counterexample: an inspection command that exits 0 reporting the
state token `FROZEN` makes state derivation raise `KeyError "FROZEN"` — an
unmodeled error — instead of mapping the unknown vocabulary to ABSENT. -/
theorem c3_counterexample :
    Container.state (ProbeOutcome.exited 0 "State: FROZEN\n") =
      Except.error (Err.KeyError "FROZEN") := rfl

/-- C3 amended: a non-zero inspection exit maps to ABSENT, but derivation is
not total into the three states: a zero exit yields either one of the three
states or a `KeyError` on the unknown state token (or an `IndexError` for
colon-free output), and failure to invoke the command propagates an
`OSError` rather than mapping to ABSENT. -/
theorem c3_state_derivation (code : Nat) (out : String) :
    (code ≠ 0 → Container.state (ProbeOutcome.exited code out) = Except.ok State.ABSENT) ∧
    ((∃ s, Container.state (ProbeOutcome.exited code out) = Except.ok s) ∨
     (∃ k, Container.state (ProbeOutcome.exited code out) = Except.error (Err.KeyError k)) ∨
     Container.state (ProbeOutcome.exited code out) = Except.error Err.IndexError) ∧
    Container.state ProbeOutcome.invocationFailure = Except.error Err.OSError := by
  refine ⟨?_, ?_, rfl⟩
  · intro h
    simp [Container.state, h]
  · by_cases h : code = 0
    · subst h
      cases hg : (pySplit ':' out)[1]? with
      | none =>
          right; right
          simp [Container.state, hg]
      | some s =>
          have hst : Container.state (ProbeOutcome.exited 0 out) =
              stateLookup (pyUpper (pyStrip s)) := by
            simp [Container.state, hg]
          rcases stateLookup_cases (pyUpper (pyStrip s)) with ⟨st, hc⟩ | hc
          · exact Or.inl ⟨st, by rw [hst, hc]⟩
          · exact Or.inr (Or.inl ⟨pyUpper (pyStrip s), by rw [hst, hc]⟩)
    · exact Or.inl ⟨State.ABSENT, by simp [Container.state, h]⟩

/-- C3 amended witness at a concrete input: exit code 1 maps to ABSENT. -/
theorem c3_state_derivation_witness :
    Container.state (ProbeOutcome.exited 1 "") = Except.ok State.ABSENT :=
  (c3_state_derivation 1 "").1 (by decide)

/-- C4: for every container whose probed state is RUNNING, `destroy` with
`force=False` raises `MustUseForceError` with zero delegated commands (any
runner, any check flag); `destroy` with `force=True` issues exactly the
`lxc-stop` delegated command followed by the `lxc-destroy` delegated
command, in that order. -/
theorem c4_destroy_running (c : Container) (runner : Runner) (check : Bool) :
    c.destroy State.RUNNING runner false check = (Except.error Err.MustUseForceError, []) ∧
    c.destroy State.RUNNING okRunner true false =
      (Except.ok true,
        [SdCall.mk ("lxc-stop-" ++ c.name) ["lxc-stop", "--name", c.name] false,
         SdCall.mk ("lxc-destroy-" ++ c.name) ["lxc-destroy", "--name", c.name] false]) := by
  constructor
  · simp [Container.destroy]
  · simp [Container.destroy, Container.stop, andThen, Container.systemd_run_stop,
      Container.systemd_run_destroy, Container.systemd_run, okRunner]

/-- C5 counterexample: on the container `box` with no creation parameters
and probed state ABSENT, `attach` with `force=True` raises
`MissingInformationsError` and issues zero delegated commands, not the
create/start/attach sequence. -/
theorem c5_counterexample :
    (Container.mk "box" none none none).attach State.ABSENT okRunner none false false true false =
      (Except.error Err.MissingInformationsError, []) := rfl

/-- C5 amended: `attach` with `force_run=False` and `force=False` on a
STOPPED container raises `MustUseForceError` with zero delegated commands;
`attach` with `force=True` on an ABSENT container issues the create, start
and attach delegated commands in that order provided all three creation
parameters are set (otherwise it raises `MissingInformationsError` before
any command, as the counterexample shows). -/
theorem c5_attach_guards (c : Container) (runner : Runner) (cmd : Option (List String))
    (bind check : Bool) (d r a : String) :
    c.attach State.STOPPED runner cmd bind false false check =
      (Except.error Err.MustUseForceError, []) ∧
    (c.distribution = some d → c.release = some r → c.architecture = some a →
      c.attach State.ABSENT okRunner cmd bind false true false =
        (Except.ok true,
          [SdCall.mk ("lxc-create-" ++ c.name)
             ["lxc-create", "--template", "download", "--name", c.name, "--",
              "--dist", d, "--release", r, "--arch", a] false,
           SdCall.mk ("lxc-start-" ++ c.name) ["lxc-start", "--name", c.name] false,
           SdCall.mk ("lxc-attach-" ++ c.name)
             (["lxc-attach", "--name", c.name] ++
               (match cmd with
                | none => []
                | some ic => ["--"] ++ ic)) bind])) := by
  constructor
  · simp [Container.attach]
  · intro hd hr ha
    simp [Container.attach, Container.start, Container.create, Container.systemd_run_create,
      Container.systemd_run_start, Container.systemd_run_attach, Container.systemd_run,
      andThen, okRunner, hd, hr, ha]

/-- C5 amended witness at a concrete input: container `box` with all three
creation parameters, probed state ABSENT, `force=True`. -/
theorem c5_attach_guards_witness :
    (Container.mk "box" (some "debian") (some "bookworm") (some "amd64")).attach
        State.ABSENT okRunner none false false true false =
      (Except.ok true,
        [SdCall.mk "lxc-create-box"
           ["lxc-create", "--template", "download", "--name", "box", "--",
            "--dist", "debian", "--release", "bookworm", "--arch", "amd64"] false,
         SdCall.mk "lxc-start-box" ["lxc-start", "--name", "box"] false,
         SdCall.mk "lxc-attach-box" ["lxc-attach", "--name", "box"] false]) :=
  (c5_attach_guards (Container.mk "box" (some "debian") (some "bookworm") (some "amd64"))
    okRunner none false false "debian" "bookworm" "amd64").2 rfl rfl rfl

/-- C6 counterexample: a batch-mode delegated command that exits 1 with
captured stderr `no such container` and empty stdout raises
`SystemdRunError` whose attached output is the empty captured stdout, not
the captured stderr text. -/
theorem c6_counterexample :
    Container.systemd_run failRunner "lxc-stop-box" ["lxc-stop", "--name", "box"] false =
      (Except.error (Err.SystemdRunError
          (sdWrap "lxc-stop-box" ["lxc-stop", "--name", "box"]) (some "")),
        [SdCall.mk "lxc-stop-box" ["lxc-stop", "--name", "box"] false]) ∧
    (Container.systemd_run failRunner "lxc-stop-box" ["lxc-stop", "--name", "box"] false).1 ≠
      Except.error (Err.SystemdRunError
        (sdWrap "lxc-stop-box" ["lxc-stop", "--name", "box"]) (some "no such container")) := by
  constructor
  · rfl
  · rw [show (Container.systemd_run failRunner "lxc-stop-box" ["lxc-stop", "--name", "box"] false).1 =
        Except.error (Err.SystemdRunError
          (sdWrap "lxc-stop-box" ["lxc-stop", "--name", "box"]) (some "")) from rfl]
    simp [Err.SystemdRunError.injEq]

/-- C6 amended: for every batch-mode delegated command that exits non-zero,
the operation raises `SystemdRunError` whose attached command is the full
wrapped argument vector including the `systemd-run` supervisor prefix, and
whose attached output is the captured standard output (not standard
error). -/
theorem c6_batch_failure_output_is_stdout (runner : Runner) (u : String) (cmd : List String)
    (h : (runner (sdWrap u cmd)).exitCode ≠ 0) :
    Container.systemd_run runner u cmd false =
      (Except.error (Err.SystemdRunError (sdWrap u cmd) (some (runner (sdWrap u cmd)).stdout)),
       [SdCall.mk u cmd false]) := by
  simp [Container.systemd_run, h]

/-- C6 amended witness at a concrete input: `failRunner` exits 1 on every
command with empty stdout. -/
theorem c6_batch_failure_output_is_stdout_witness :
    Container.systemd_run failRunner "u" ["lxc-stop"] false =
      (Except.error (Err.SystemdRunError (sdWrap "u" ["lxc-stop"]) (some "")),
       [SdCall.mk "u" ["lxc-stop"] false]) :=
  c6_batch_failure_output_is_stdout failRunner "u" ["lxc-stop"] (by decide)

/-- C9: for every container whose probed state is ABSENT, `attach` with
`force_run=True` and `force=False` passes attach's own guard but raises
`MustUseForceError` with zero delegated commands, and its result is exactly
the result of the implied `start` step with `force=False`. -/
theorem c9_attach_force_run_absent (c : Container) (runner : Runner)
    (cmd : Option (List String)) (bind check : Bool) :
    c.attach State.ABSENT runner cmd bind true false check =
      (Except.error Err.MustUseForceError, []) ∧
    c.attach State.ABSENT runner cmd bind true false check =
      c.start State.ABSENT runner false check := by
  constructor
  · simp [Container.attach, Container.start, andThen]
  · simp [Container.attach, Container.start, andThen]

/-- C8: for every lifecycle operation (stop, start, create, destroy,
attach), every container, probed state and flag values, `check=True` issues
zero delegated commands and yields the same outcome as `check=False` does
under a successful runner, except that the `MissingInformationsError` from
create's parameter check (also when reached through start or attach) is
skipped and replaced by the `True` proceed decision. -/
theorem c8_check_mode (c : Container) (st : State) (runner : Runner)
    (force fr bind : Bool) (cmd : Option (List String)) :
    ((c.stop st runner true).2 = [] ∧
      (c.stop st runner true).1 = skipMissing (c.stop st okRunner false).1) ∧
    ((c.start st runner force true).2 = [] ∧
      (c.start st runner force true).1 = skipMissing (c.start st okRunner force false).1) ∧
    ((c.create st runner true).2 = [] ∧
      (c.create st runner true).1 = skipMissing (c.create st okRunner false).1) ∧
    ((c.destroy st runner force true).2 = [] ∧
      (c.destroy st runner force true).1 = skipMissing (c.destroy st okRunner force false).1) ∧
    ((c.attach st runner cmd bind fr force true).2 = [] ∧
      (c.attach st runner cmd bind fr force true).1 =
        skipMissing (c.attach st okRunner cmd bind fr force false).1) := by
  obtain ⟨n, d, r, a⟩ := c
  cases st <;> cases force <;> cases fr <;> cases d <;> cases r <;> cases a <;>
    simp [Container.stop, Container.start, Container.create, Container.destroy,
      Container.attach, Container.systemd_run_stop, Container.systemd_run_start,
      Container.systemd_run_create, Container.systemd_run_destroy,
      Container.systemd_run_attach, Container.systemd_run, andThen, okRunner, skipMissing]

/-- helper: looking up the inserted key after one loop iteration: a fresh
key holds the plain value, a plain value becomes a two-element list, and a
list gets the new value appended. -/
theorem lookupS_addInfo_self (d : List (String × LoopVal)) (k v : String) :
    lookupS (addInfo d k v) k =
      match lookupS d k with
      | none => some (Sum.inl v)
      | some (Sum.inl s) => some (Sum.inr [s, v])
      | some (Sum.inr l) => some (Sum.inr (l ++ [v])) := by
  induction d with
  | nil => simp [addInfo, lookupS]
  | cons e tl ih =>
      obtain ⟨k2, v2⟩ := e
      by_cases h : k2 = k
      · subst h
        cases v2 <;> simp [addInfo, lookupS]
      · simp [addInfo, lookupS, h, ih]

/-- helper: one loop iteration on key `k` leaves every other key's entry
unchanged. -/
theorem lookupS_addInfo_ne (d : List (String × LoopVal)) (k v k2 : String) (h : k ≠ k2) :
    lookupS (addInfo d k v) k2 = lookupS d k2 := by
  induction d with
  | nil => simp [addInfo, lookupS, h]
  | cons e tl ih =>
      obtain ⟨k3, v3⟩ := e
      by_cases h3 : k3 = k
      · subst h3
        cases v3 <;> simp [addInfo, lookupS, h]
      · simp [addInfo, lookupS, h3, ih]

/-- helper: the values collected under `k` after one loop iteration grow by
the new value exactly when the iteration's key is `k`. -/
theorem collected_addInfo (d : List (String × LoopVal)) (k2 v k : String) :
    collected k (addInfo d k2 v) =
      if k2 = k then collected k d ++ [v] else collected k d := by
  by_cases h : k2 = k
  · subst h
    rw [if_pos rfl]
    unfold collected
    rw [lookupS_addInfo_self]
    cases hl : lookupS d k2 with
    | none => simp
    | some lv => cases lv <;> simp
  · rw [if_neg h]
    unfold collected
    rw [lookupS_addInfo_ne d k2 v k h]

/-- helper: running the parsing loop appends, key by key, exactly the
parsed values of the processed lines to whatever was already collected. -/
theorem collected_buildInfos (lines : List String) (acc res : List (String × LoopVal))
    (k : String) (h : buildInfos acc lines = Except.ok res) :
    collected k res = collected k acc ++ valsFor k lines := by
  induction lines generalizing acc with
  | nil =>
      unfold buildInfos at h
      injection h with h2
      subst h2
      simp [valsFor]
  | cons line rest ih =>
      unfold buildInfos at h
      cases hp : parseLine line with
      | error e =>
          rw [hp] at h
          simp at h
      | ok kv =>
          rw [hp] at h
          simp only [] at h
          rw [ih (addInfo acc kv.1 kv.2) h, collected_addInfo]
          obtain ⟨k1, v1⟩ := kv
          by_cases hk : k1 = k
          · simp [valsFor, List.filterMap_cons, hp, hk, List.append_assoc]
          · simp [valsFor, List.filterMap_cons, hp, hk]

/-- helper: normalization keeps each entry's key. -/
theorem normalizeEntry_fst (e : String × LoopVal) (p : String × PyVal)
    (h : normalizeEntry e = Except.ok p) : p.1 = e.1 := by
  obtain ⟨k, v⟩ := e
  cases v with
  | inl s =>
      simp only [normalizeEntry] at h
      by_cases hk : k = "state"
      · rw [if_pos hk] at h
        cases hc : stateLookup (pyUpper s) with
        | ok st =>
            rw [hc] at h
            injection h with h2
            rw [← h2]
        | error err =>
            rw [hc] at h
            simp at h
      · rw [if_neg hk] at h
        injection h with h2
        rw [← h2]
  | inr l =>
      simp only [normalizeEntry] at h
      by_cases hk : k = "state"
      · rw [if_pos hk] at h
        simp at h
      · rw [if_neg hk] at h
        injection h with h2
        rw [← h2]

/-- helper: a key whose loop entry is an accumulated list, and which is not
the normalized `state` key, survives normalization as the same list. -/
theorem lookupS_mapEntries (infos : List (String × LoopVal)) (res : List (String × PyVal))
    (k : String) (L : List String) (hk : k ≠ "state")
    (hm : mapEntries infos = Except.ok res)
    (hl : lookupS infos k = some (Sum.inr L)) :
    lookupS res k = some (PyVal.list L) := by
  induction infos generalizing res with
  | nil => simp [lookupS] at hl
  | cons e tl ih =>
      obtain ⟨k2, v2⟩ := e
      unfold mapEntries at hm
      cases hn : normalizeEntry (k2, v2) with
      | error err =>
          rw [hn] at hm
          simp at hm
      | ok p =>
          rw [hn] at hm
          cases hr : mapEntries tl with
          | error err =>
              rw [hr] at hm
              simp at hm
          | ok ps =>
              rw [hr] at hm
              simp only [] at hm
              injection hm with hm2
              subst hm2
              by_cases h2 : k2 = k
              · subst h2
                simp only [lookupS, if_pos rfl] at hl
                injection hl with hl2
                subst hl2
                simp only [normalizeEntry, if_neg hk] at hn
                injection hn with hn2
                rw [← hn2]
                simp [lookupS]
              · have hfst : p.1 = k2 := normalizeEntry_fst (k2, v2) p hn
                simp only [lookupS, if_neg h2] at hl
                have goal2 := ih ps hr hl
                simp only [lookupS]
                rw [hfst, if_neg h2]
                exact goal2

/-- C7 counterexample: for the inspection output with the two lines
`ip: 10.0.0.2` and `ip: fe80::1`, `info` maps `ip` to the list
`["10.0.0.2", "fe80"]` — the IPv6 value is truncated at its first colon —
and not to `["10.0.0.2", "fe80::1"]`. -/
theorem c7_counterexample :
    Container.info (ProbeOutcome.exited 0 "ip: 10.0.0.2\nip: fe80::1") =
      Except.ok [("ip", PyVal.list ["10.0.0.2", "fe80"])] ∧
    Container.info (ProbeOutcome.exited 0 "ip: 10.0.0.2\nip: fe80::1") ≠
      Except.ok [("ip", PyVal.list ["10.0.0.2", "fe80::1"])] := by
  constructor
  · rfl
  · rw [show Container.info (ProbeOutcome.exited 0 "ip: 10.0.0.2\nip: fe80::1") =
        Except.ok [("ip", PyVal.list ["10.0.0.2", "fe80"])] from rfl]
    simp

/-- C7 amended: when a key other than `state` repeats across lines of the
inspection output, `info` collects its values into an ordered list
preserving first-seen order, where each value is the text between the
first and second colon of its line (stripped and lowercased); in
particular, for the two lines `ip: 10.0.0.2` and `ip: fe80::1` the result
maps `ip` to `["10.0.0.2", "fe80"]`, in that order. -/
theorem c7_repeated_keys (out k : String) (res : List (String × PyVal))
    (hk : k ≠ "state")
    (hi : Container.info (ProbeOutcome.exited 0 out) = Except.ok res)
    (hlen : 2 ≤ (valsFor k (pySplit '\n' (pyStrip out))).length) :
    lookupS res k = some (PyVal.list (valsFor k (pySplit '\n' (pyStrip out)))) ∧
    Container.info (ProbeOutcome.exited 0 "ip: 10.0.0.2\nip: fe80::1") =
      Except.ok [("ip", PyVal.list ["10.0.0.2", "fe80"])] := by
  refine ⟨?_, rfl⟩
  unfold Container.info at hi
  simp only [ne_eq, not_true_eq_false, if_false, reduceIte] at hi
  cases hb : buildInfos [] (pySplit '\n' (pyStrip out)) with
  | error e =>
      rw [hb] at hi
      simp at hi
  | ok infos =>
      rw [hb] at hi
      simp only [] at hi
      have hcol := collected_buildInfos (pySplit '\n' (pyStrip out)) [] infos k hb
      rw [show collected k ([] : List (String × LoopVal)) = [] from rfl,
        List.nil_append] at hcol
      unfold collected at hcol
      cases hl : lookupS infos k with
      | none =>
          rw [hl] at hcol
          simp only [] at hcol
          rw [← hcol] at hlen
          simp at hlen
      | some v =>
          cases v with
          | inl s =>
              rw [hl] at hcol
              simp only [] at hcol
              rw [← hcol] at hlen
              simp at hlen
          | inr l =>
              rw [hl] at hcol
              simp only [] at hcol
              have hfin := lookupS_mapEntries infos res k l hk hi hl
              rw [← hcol]
              exact hfin

/-- C7 amended witness at the concrete scenario from the claim. -/
theorem c7_repeated_keys_witness :
    lookupS [("ip", PyVal.list ["10.0.0.2", "fe80"])] "ip" =
      some (PyVal.list (valsFor "ip" (pySplit '\n' (pyStrip "ip: 10.0.0.2\nip: fe80::1")))) ∧
    Container.info (ProbeOutcome.exited 0 "ip: 10.0.0.2\nip: fe80::1") =
      Except.ok [("ip", PyVal.list ["10.0.0.2", "fe80"])] :=
  c7_repeated_keys "ip: 10.0.0.2\nip: fe80::1" "ip" [("ip", PyVal.list ["10.0.0.2", "fe80"])]
    (by decide) rfl (by decide)

/-- C10: when the runtime's list command produces empty output, `list_all`
returns a one-element list holding a container whose name is the empty
string — never the empty list — and `list_info` consequently probes that
empty name. -/
theorem c10_empty_list_output {α : Type} (infoOf : String → α) :
    Container.list_all "" = [Container.mk "" none none none] ∧
    Container.list_all "" ≠ [] ∧
    Container.list_info "" infoOf = [("", infoOf "")] := by
  refine ⟨rfl, by decide, rfl⟩

end Lxclib
